import Mathlib

/-!
Shallow embedding of the vcfappnx contact-collection HTTP API (src/server.js)
and verification of its specification claims.

The JavaScript handlers are translated into pure Lean functions:
  - request bodies become structures of `Option String` fields (a JSON field is
    absent, or present with a string value; JavaScript falsiness of a string
    field means absent-or-empty);
  - the Mongo contacts collection becomes a `List Contact` in creation order,
    with the unique index on `phone_number` modelled inside `insertContact` /
    `updateOneByPhone` (duplicate-key errors carry the Mongo code 11000);
  - each handler returns its HTTP outcome, the post-state of the store, and a
    log of the store operations it performed.
-/

namespace VcfApp

/-- JavaScript falsiness of an optional string field of a JSON body:
`!x` is true when the field is absent or the empty string. -/
def isFalsy : Option String → Bool
  | none => true
  | some s => s == ""

/-- `phone_number.replace(/\D/g, "")` (src/server.js:134): strip every
character that is not a decimal digit, keeping the digits in order. -/
def normalizePhone (s : String) : String :=
  ⟨s.data.filter Char.isDigit⟩

/-- The length test of src/server.js:136: `cleanedPhone.length < 10 ||
cleanedPhone.length > 15` signals InvalidPhone. -/
def phoneLengthBad (p : String) : Bool :=
  p.length < 10 || p.length > 15

/-- Constant support link attached to every contact (src/server.js:24). -/
def SUPPORT_LINK : String :=
  "https://whatsapp.com/channel/0029Vb6b864Id7nIEgOrMe24"

/-- The static deny-list of src/server.js:140. -/
def blockedNumbers : List String :=
  ["254713380848", "254712345678"]

/-- A document of the `contacts` collection.  `id` stands for the Mongo
`_id` (as its 24-hex-character string form); `created_at` is an abstract
timestamp. -/
structure Contact where
  id : String
  name : String
  phone_number : String
  link : String
  created_at : Nat
  deriving DecidableEq, Repr

/-- The store operations a handler can perform, for tracking which requests
touch the document store. -/
inductive StoreOp where
  | insertContact
  | updateContact
  | findContact
  | deleteContact
  | insertBroadcast
  | findBroadcast
  | insertVipMedia
  deriving DecidableEq, Repr

/-- `insertOne` on the contacts collection: the unique index on
`phone_number` (src/server.js:43) rejects the write with Mongo error code
11000 when another document already holds the same phone number. -/
def insertContact (store : List Contact) (c : Contact) :
    Except Nat (List Contact) :=
  if store.any (fun d => d.phone_number == c.phone_number) then .error 11000
  else .ok (store ++ [c])

/-- Outcome of POST /api/contacts, tagged by the responses of
src/server.js:128-154. -/
inductive RegisterResult where
  | missingField                -- 400
  | invalidPhone                -- 400
  | forbidden                   -- 403
  | duplicatePhone              -- 409
  | storeFailure                -- 500
  | created (c : Contact)       -- 201
  deriving DecidableEq, Repr

/-- HTTP status carried by each register outcome. -/
def RegisterResult.status : RegisterResult → Nat
  | .missingField => 400
  | .invalidPhone => 400
  | .forbidden => 403
  | .duplicatePhone => 409
  | .storeFailure => 500
  | .created _ => 201

/-- Body of POST /api/contacts. -/
structure RegisterRequest where
  name : Option String
  phone_number : Option String
  deriving DecidableEq, Repr

/-- The POST /api/contacts handler (src/server.js:128-154).  `now` is the
current timestamp and `newId` the `_id` Mongo would assign.  Returns the
response, the post-state of the contacts collection, and the store
operations performed. -/
def registerHandler (now : Nat) (newId : String) (store : List Contact)
    (req : RegisterRequest) : RegisterResult × List Contact × List StoreOp :=
  if isFalsy req.name || isFalsy req.phone_number then
    (.missingField, store, [])
  else
    let cleanedPhone := normalizePhone (req.phone_number.getD "")
    if phoneLengthBad cleanedPhone then
      (.invalidPhone, store, [])
    else if cleanedPhone ∈ blockedNumbers then
      (.forbidden, store, [])
    else
      let newContact : Contact :=
        ⟨newId, req.name.getD "", cleanedPhone, SUPPORT_LINK, now⟩
      match insertContact store newContact with
      | .error _ => (.duplicatePhone, store, [.insertContact])
      | .ok store1 => (.created newContact, store1, [.insertContact])

/-- The register handler answers InvalidPhone exactly when both fields are
present (truthy) and the cleaned phone fails the length test of
src/server.js:136. -/
theorem registerHandler_invalidPhone_iff (now : Nat) (newId : String)
    (store : List Contact) (req : RegisterRequest) :
    (registerHandler now newId store req).1 = RegisterResult.invalidPhone
      ↔ (isFalsy req.name || isFalsy req.phone_number) = false
        ∧ phoneLengthBad (normalizePhone (req.phone_number.getD "")) = true := by
  simp only [registerHandler]
  split
  · rename_i h
    constructor
    · intro hres
      exact absurd hres (by simp)
    · intro hc
      rw [Bool.or_eq_true] at h
      rcases h with h | h <;> simp [h] at hc
  · split
    · simp_all
    · split
      · simp_all
      · constructor
        · intro hres
          split at hres <;> simp_all
        · intro h
          simp_all

/-- C1: For every raw phone input string, normalization removes exactly the
characters that are not decimal digits, keeping the digits in order; the
result consists of digits only; and, in the register handler (once the
missing-field check has passed), the request is rejected with InvalidPhone
iff the normalized length is outside the closed range [10, 15].
Normalization is a total function on strings, the empty string included. -/
theorem normalize_strips_nondigits_and_validate_range (s : String) :
    (normalizePhone s).data = s.data.filter Char.isDigit
    ∧ (normalizePhone s).data.all Char.isDigit = true
    ∧ (∀ (now : Nat) (newId : String) (store : List Contact)
        (nameOpt : Option String),
        isFalsy nameOpt = false → s ≠ "" →
        ((registerHandler now newId store ⟨nameOpt, some s⟩).1
            = RegisterResult.invalidPhone
          ↔ ¬(10 ≤ (normalizePhone s).length ∧ (normalizePhone s).length ≤ 15))) := by
  refine ⟨rfl, ?_, ?_⟩
  · simp [normalizePhone, List.all_eq_true]
  · intro now newId store nameOpt hname hs
    have hfalsy : isFalsy (some s) = false := by
      simp [isFalsy]
      exact hs
    rw [registerHandler_invalidPhone_iff]
    simp [hname, hfalsy, phoneLengthBad]
    omega

/-- Witness for C1 at the spec example input "+254 (712) 000-111". -/
theorem normalize_strips_nondigits_and_validate_range_witness :
    (normalizePhone "+254 (712) 000-111").data
        = "+254 (712) 000-111".data.filter Char.isDigit
    ∧ ((registerHandler 0 "a" [] ⟨some "Amy", some "+254 (712) 000-111"⟩).1
          = RegisterResult.invalidPhone
        ↔ ¬(10 ≤ (normalizePhone "+254 (712) 000-111").length
            ∧ (normalizePhone "+254 (712) 000-111").length ≤ 15)) := by
  have h := normalize_strips_nondigits_and_validate_range "+254 (712) 000-111"
  exact ⟨h.1, h.2.2 0 "a" [] (some "Amy") (by decide) (by decide)⟩

/-- The only error `insertContact` can raise is the duplicate-key code
11000. -/
theorem insertContact_error_code {store : List Contact} {c : Contact}
    {e : Nat} (h : insertContact store c = Except.error e) : e = 11000 := by
  unfold insertContact at h
  split at h <;> simp_all

/-- Any register outcome among MissingField, InvalidPhone and Forbidden
leaves the store untouched and performs no store operation. -/
theorem registerHandler_validation_frame (now : Nat) (newId : String)
    (store : List Contact) (req : RegisterRequest) :
    ((registerHandler now newId store req).1 = RegisterResult.missingField
      ∨ (registerHandler now newId store req).1 = RegisterResult.invalidPhone
      ∨ (registerHandler now newId store req).1 = RegisterResult.forbidden) →
    (registerHandler now newId store req).2 = (store, ([] : List StoreOp)) := by
  simp only [registerHandler]
  split
  · intro _; rfl
  · split
    · intro _; rfl
    · split
      · intro _; rfl
      · intro h
        exfalso
        rcases h with h | h | h <;> (split at h <;> simp_all)

/-- The register handler performs either no store operation at all or the
single insert: there is no read, count or pre-check against the store. -/
theorem registerHandler_ops (now : Nat) (newId : String)
    (store : List Contact) (req : RegisterRequest) :
    (registerHandler now newId store req).2.2 = []
    ∨ (registerHandler now newId store req).2.2 = [StoreOp.insertContact] := by
  simp only [registerHandler]
  split
  · left; rfl
  · split
    · left; rfl
    · split
      · left; rfl
      · split
        · right; rfl
        · right; rfl

/-- The register handler answers DuplicatePhone exactly when every local
check passes and the store insert itself fails with the duplicate-key
error. -/
theorem registerHandler_duplicate_iff (now : Nat) (newId : String)
    (store : List Contact) (req : RegisterRequest) :
    (registerHandler now newId store req).1 = RegisterResult.duplicatePhone
      ↔ (isFalsy req.name || isFalsy req.phone_number) = false
        ∧ phoneLengthBad (normalizePhone (req.phone_number.getD "")) = false
        ∧ normalizePhone (req.phone_number.getD "") ∉ blockedNumbers
        ∧ insertContact store
            ⟨newId, req.name.getD "", normalizePhone (req.phone_number.getD ""),
              SUPPORT_LINK, now⟩ = Except.error 11000 := by
  simp only [registerHandler]
  split
  · rename_i h
    rw [Bool.or_eq_true] at h
    constructor
    · intro hres
      exact absurd hres (by simp)
    · intro hc
      rcases h with h | h <;> simp [h] at hc
  · rename_i h
    simp only [Bool.not_eq_true] at h
    split
    · rename_i hbad
      constructor
      · intro hres
        exact absurd hres (by simp)
      · intro hc
        simp [hc.2.1] at hbad
    · rename_i hbad
      simp only [Bool.not_eq_true] at hbad
      split
      · rename_i hblk
        constructor
        · intro hres
          exact absurd hres (by simp)
        · intro hc
          exact absurd hblk hc.2.2.1
      · rename_i hblk
        constructor
        · intro hres
          split at hres
          · rename_i e heq
            have he := insertContact_error_code heq
            exact ⟨h, hbad, hblk, he ▸ heq⟩
          · exact absurd hres (by simp)
        · intro hc
          rw [hc.2.2.2]

/-- C3: A registration whose normalized phone is on the deny-list fails
Forbidden regardless of the name supplied, with no store access; and the
deny-list check comes after the missing-field check (a falsy name still
yields MissingField, even for a blocked phone).  Blocked numbers have 12
digits, so the InvalidPhone check always passes for them. -/
theorem register_blocked_forbidden (now : Nat) (newId : String)
    (store : List Contact) (nameOpt : Option String) (rawPhone : String)
    (hb : normalizePhone rawPhone ∈ blockedNumbers) :
    (isFalsy nameOpt = false →
      registerHandler now newId store ⟨nameOpt, some rawPhone⟩
        = (RegisterResult.forbidden, store, []))
    ∧ (isFalsy nameOpt = true →
      registerHandler now newId store ⟨nameOpt, some rawPhone⟩
        = (RegisterResult.missingField, store, [])) := by
  have hb2 : normalizePhone rawPhone = "254713380848"
      ∨ normalizePhone rawPhone = "254712345678" := by
    simpa [blockedNumbers] using hb
  have hraw : rawPhone ≠ "" := by
    intro he
    subst he
    rcases hb2 with h | h <;> exact absurd h (by decide)
  have hf : isFalsy (some rawPhone) = false := by
    simp [isFalsy]
    exact hraw
  have hlen : phoneLengthBad (normalizePhone rawPhone) = false := by
    rcases hb2 with h | h <;> rw [h] <;> decide
  constructor
  · intro hname
    simp [registerHandler, hname, hf, hlen, hb]
  · intro hname
    simp [registerHandler, hname]

/-- Witness for C3: registering the first deny-listed number (entered with
punctuation) is Forbidden, and with a missing name it is MissingField. -/
theorem register_blocked_forbidden_witness :
    registerHandler 5 "id1" [] ⟨some "Eve", some "+254 713 380 848"⟩
      = (RegisterResult.forbidden, [], [])
    ∧ registerHandler 5 "id1" [] ⟨none, some "+254 713 380 848"⟩
      = (RegisterResult.missingField, [], []) :=
  ⟨(register_blocked_forbidden 5 "id1" [] (some "Eve") "+254 713 380 848"
      (by decide)).1 (by decide),
   (register_blocked_forbidden 5 "id1" [] none "+254 713 380 848"
      (by decide)).2 (by decide)⟩

/-- C4: Register answers DuplicatePhone iff all local validation passes and
the store's unique index on phone_number rejects the insert (error 11000);
every validation failure (MissingField, InvalidPhone, Forbidden) leaves
the store untouched with zero store operations; and the handler never
performs any store operation other than the single insert — in particular
there is no application-level duplicate pre-check. -/
theorem register_duplicate_iff_store_rejects (now : Nat) (newId : String)
    (store : List Contact) (req : RegisterRequest) :
    ((registerHandler now newId store req).1 = RegisterResult.duplicatePhone
      ↔ (isFalsy req.name || isFalsy req.phone_number) = false
        ∧ phoneLengthBad (normalizePhone (req.phone_number.getD "")) = false
        ∧ normalizePhone (req.phone_number.getD "") ∉ blockedNumbers
        ∧ insertContact store
            ⟨newId, req.name.getD "", normalizePhone (req.phone_number.getD ""),
              SUPPORT_LINK, now⟩ = Except.error 11000)
    ∧ (((registerHandler now newId store req).1 = RegisterResult.missingField
        ∨ (registerHandler now newId store req).1 = RegisterResult.invalidPhone
        ∨ (registerHandler now newId store req).1 = RegisterResult.forbidden) →
      (registerHandler now newId store req).2 = (store, ([] : List StoreOp)))
    ∧ ((registerHandler now newId store req).2.2 = []
        ∨ (registerHandler now newId store req).2.2 = [StoreOp.insertContact]) :=
  ⟨registerHandler_duplicate_iff now newId store req,
   registerHandler_validation_frame now newId store req,
   registerHandler_ops now newId store req⟩

/-- Witness for C4: a second registration of a phone already stored is
DuplicatePhone, and a missing-field request leaves the store untouched. -/
theorem register_duplicate_iff_store_rejects_witness :
    (registerHandler 1 "b" [⟨"a", "Bob", "0712345678", SUPPORT_LINK, 0⟩]
        ⟨some "Amy", some "07 1234 5678"⟩).1 = RegisterResult.duplicatePhone
    ∧ (registerHandler 1 "b" [⟨"a", "Bob", "0712345678", SUPPORT_LINK, 0⟩]
        ⟨none, some "07 1234 5678"⟩).2
      = ([⟨"a", "Bob", "0712345678", SUPPORT_LINK, 0⟩], ([] : List StoreOp)) :=
  ⟨(register_duplicate_iff_store_rejects 1 "b"
      [⟨"a", "Bob", "0712345678", SUPPORT_LINK, 0⟩]
      ⟨some "Amy", some "07 1234 5678"⟩).1.mpr
      ⟨by decide, by decide, by decide, by rfl⟩,
   (register_duplicate_iff_store_rejects 1 "b"
      [⟨"a", "Bob", "0712345678", SUPPORT_LINK, 0⟩]
      ⟨none, some "07 1234 5678"⟩).2.1 (Or.inl (by decide))⟩

/-! ## vCard export (GET /api/contacts/download, src/server.js:96-124) -/

/-- The decorative marker appended to every display name
(src/server.js:107). -/
def nameSuffix : String := "💀"

/-- One vCard record as the download handler builds it by successive
concatenation (src/server.js:109-114). -/
def vcardBlock (c : Contact) : String :=
  "BEGIN:VCARD\n" ++ "VERSION:3.0\n"
  ++ "FN:" ++ c.name ++ nameSuffix ++ "\n"
  ++ "N:" ++ c.name ++ nameSuffix ++ ";;;;\n"
  ++ "TEL;TYPE=CELL:" ++ c.phone_number ++ "\n"
  ++ "END:VCARD\n\n"

/-- Outcome of GET /api/contacts/download. -/
inductive DownloadResult where
  | noContacts                 -- 404
  | storeFailure               -- 500
  | file (content : String)    -- 200, vCard text attachment
  deriving DecidableEq, Repr

/-- The download handler (src/server.js:96-124): fetch every contact with
no limit and no sort (natural creation order of the store), 404 when the
set is empty, otherwise the concatenation of one block per contact. -/
def downloadHandler (store : List Contact) : DownloadResult × List StoreOp :=
  if store.isEmpty then (.noContacts, [.findContact])
  else (.file ((store.map vcardBlock).foldl (· ++ ·) ""), [.findContact])

/-- The lines of one vCard record exactly as the specification spells
them, the final element being the blank line that terminates the block. -/
def specVcardLines (c : Contact) : List String :=
  ["BEGIN:VCARD",
   "VERSION:3.0",
   "FN:" ++ c.name ++ nameSuffix,
   "N:" ++ c.name ++ nameSuffix ++ ";;;;",
   "TEL;TYPE=CELL:" ++ c.phone_number,
   "END:VCARD",
   ""]

/-- Each line terminated by a newline. -/
def joinLines : List String → String
  | [] => ""
  | l :: ls => l ++ "\n" ++ joinLines ls

/-- A vCard block as the specification words it: exactly the given lines,
blank terminator included. -/
def specVcardBlock (c : Contact) : String :=
  joinLines (specVcardLines c)

/-- The block built by the handler is character-for-character the block the
specification describes: the six lines plus a blank line, with the raw
(unescaped) name. -/
theorem vcardBlock_eq_specVcardBlock (c : Contact) :
    vcardBlock c = specVcardBlock c := by
  apply String.ext
  simp only [vcardBlock, specVcardBlock, specVcardLines, joinLines,
    String.data_append, List.append_assoc,
    (show ("BEGIN:VCARD\n" : String).data
        = ("BEGIN:VCARD" : String).data ++ ("\n" : String).data from rfl),
    (show ("VERSION:3.0\n" : String).data
        = ("VERSION:3.0" : String).data ++ ("\n" : String).data from rfl),
    (show (";;;;\n" : String).data
        = (";;;;" : String).data ++ ("\n" : String).data from rfl),
    (show ("END:VCARD\n\n" : String).data
        = ("END:VCARD" : String).data ++ ("\n" : String).data
          ++ ("\n" : String).data from rfl),
    (show ("" : String).data = ([] : List Char) from rfl),
    List.append_nil, List.nil_append, List.cons_append]

/-- Concatenating the blocks in store order, as the forEach accumulator of
src/server.js:106-115 does. -/
theorem foldl_append_eq_join (l : List String) :
    l.foldl (· ++ ·) "" = String.join l := by
  simp [String.join]

/-- C2: Export fails NoContacts (404) on an empty contact set; on a
non-empty set it produces exactly one vCard 3.0 block per contact, in
store creation order, each block being exactly the specified lines
BEGIN:VCARD / VERSION:3.0 / FN / N / TEL / END:VCARD followed by a blank
line, with the raw name unescaped. -/
theorem export_blocks_spec (store : List Contact) :
    (store = [] → (downloadHandler store).1 = DownloadResult.noContacts)
    ∧ (store ≠ [] →
        (downloadHandler store).1
          = DownloadResult.file (String.join (store.map specVcardBlock))) := by
  constructor
  · intro h
    subst h
    rfl
  · intro h
    have hne : store.isEmpty = false := by
      simpa [List.isEmpty_iff] using h
    have hblocks : store.map vcardBlock = store.map specVcardBlock :=
      List.map_congr_left (fun c _ => vcardBlock_eq_specVcardBlock c)
    simp [downloadHandler, hne, hblocks, foldl_append_eq_join]

/-- Witness for C2: a two-contact store exports the two expected blocks in
creation order; the empty store is NoContacts. -/
theorem export_blocks_spec_witness :
    (downloadHandler []).1 = DownloadResult.noContacts
    ∧ (downloadHandler
        [⟨"a", "Amy", "254712000111", SUPPORT_LINK, 0⟩,
         ⟨"b", "Bob", "254799999999", SUPPORT_LINK, 1⟩]).1
      = DownloadResult.file (String.join
          [specVcardBlock ⟨"a", "Amy", "254712000111", SUPPORT_LINK, 0⟩,
           specVcardBlock ⟨"b", "Bob", "254799999999", SUPPORT_LINK, 1⟩]) :=
  ⟨(export_blocks_spec []).1 rfl,
   (export_blocks_spec
      [⟨"a", "Amy", "254712000111", SUPPORT_LINK, 0⟩,
       ⟨"b", "Bob", "254799999999", SUPPORT_LINK, 1⟩]).2 (by simp)⟩

/-! ## Admin gate (adminAuth middleware, src/server.js:194-198) -/

/-- `adminAuth` (src/server.js:194-198): the request passes iff the
x-admin-key header is present, non-empty (truthy) and equal to the
configured secret `ADMIN_KEY`. -/
def adminAuth (adminKey : String) (headerKey : Option String) : Bool :=
  match headerKey with
  | none => false
  | some k => !(k == "") && k == adminKey

/-- An admin route: the `adminAuth` middleware runs first and, on failure,
short-circuits with Unauthorized (401) before the guarded handler can
run.  `handler` is an arbitrary route body over an arbitrary store
type. -/
def guardedRoute {ρ σ : Type} (adminKey : String) (headerKey : Option String)
    (unauthorized : ρ) (handler : σ → ρ × σ × List StoreOp) (store : σ) :
    ρ × σ × List StoreOp :=
  if adminAuth adminKey headerKey then handler store
  else (unauthorized, store, [])

/-- C6: for every admin route (any guarded handler, over any store type)
and every request whose x-admin-key header is absent, empty, or not equal
to the configured secret, the guard answers Unauthorized, the store is
untouched and zero store operations are performed — the guarded handler
never executes. -/
theorem adminGate_rejects {ρ σ : Type} (adminKey : String)
    (headerKey : Option String) (unauthorized : ρ)
    (handler : σ → ρ × σ × List StoreOp) (store : σ)
    (h : headerKey = none ∨ headerKey = some ""
        ∨ ∃ k, headerKey = some k ∧ k ≠ adminKey) :
    guardedRoute adminKey headerKey unauthorized handler store
      = (unauthorized, store, []) := by
  have hfail : adminAuth adminKey headerKey = false := by
    rcases h with h | h | ⟨k, hk, hne⟩
    · subst h; rfl
    · subst h; rfl
    · subst hk
      simp [adminAuth, hne]
  simp [guardedRoute, hfail]

/-- Witness for C6: a wrong key on an admin route is rejected with no
handler execution. -/
theorem adminGate_rejects_witness :
    guardedRoute "secret" (some "wrong") (401 : Nat)
      (fun s : List Contact => (200, s, [StoreOp.findContact])) []
      = (401, [], []) :=
  adminGate_rejects "secret" (some "wrong") 401
    (fun s : List Contact => (200, s, [StoreOp.findContact])) []
    (Or.inr (Or.inr ⟨"wrong", rfl, by decide⟩))

/-! ## Broadcast log (GET /api/broadcast/latest, src/server.js:329-336) -/

/-- A document of the `broadcasts` collection. -/
structure BroadcastMessage where
  message : String
  created_at : Nat
  deriving DecidableEq, Repr

/-- The descending creation-time order used by
`.sort({ created_at: -1 })`. -/
def laterCreated (a b : BroadcastMessage) : Prop :=
  b.created_at ≤ a.created_at

instance : DecidableRel laterCreated :=
  fun a b => Nat.decLe b.created_at a.created_at

instance : IsTotal BroadcastMessage laterCreated :=
  ⟨fun a b => Nat.le_total b.created_at a.created_at⟩

instance : IsTrans BroadcastMessage laterCreated :=
  ⟨fun _ _ _ h1 h2 => Nat.le_trans h2 h1⟩

/-- GET /api/broadcast/latest (src/server.js:329-336): fetch the
broadcasts sorted newest first with limit 1; answer 200 with `post[0]`
when one exists and the explicit null otherwise — never an error. -/
def latestHandler (log : List BroadcastMessage) :
    Nat × Option BroadcastMessage :=
  (200, ((log.insertionSort laterCreated).take 1).head?)

/-- C8: Latest never errs on an empty log — it answers 200 with the
explicit null; and on a non-empty log it answers 200 with a message of
the log whose created_at is greatest. -/
theorem latest_never_errors (log : List BroadcastMessage) :
    (log = [] → latestHandler log = (200, none))
    ∧ (log ≠ [] → ∃ b, latestHandler log = (200, some b) ∧ b ∈ log
        ∧ ∀ x ∈ log, x.created_at ≤ b.created_at) := by
  constructor
  · intro h
    subst h
    rfl
  · intro h
    obtain ⟨b, t, hl⟩ :
        ∃ b t, List.insertionSort laterCreated log = b :: t := by
      cases he : List.insertionSort laterCreated log with
      | nil =>
        have hp := List.perm_insertionSort laterCreated log
        rw [he] at hp
        exact absurd hp.symm.eq_nil h
      | cons b t => exact ⟨b, t, rfl⟩
    have hsorted := List.sorted_insertionSort laterCreated log
    rw [hl] at hsorted
    have hperm := List.perm_insertionSort laterCreated log
    rw [hl] at hperm
    refine ⟨b, ?_, ?_, ?_⟩
    · simp [latestHandler, hl]
    · exact hperm.mem_iff.mp (List.mem_cons_self b t)
    · intro x hx
      have hx2 : x ∈ b :: t := hperm.mem_iff.mpr hx
      rcases List.mem_cons.mp hx2 with h1 | h1
      · subst h1
        exact Nat.le_refl _
      · exact (List.sorted_cons.mp hsorted).1 x h1

/-- Witness for C8: empty log yields the explicit null; a two-message log
yields the most recent message. -/
theorem latest_never_errors_witness :
    latestHandler ([] : List BroadcastMessage) = (200, none)
    ∧ ∃ b, latestHandler [⟨"first", 5⟩, ⟨"second", 9⟩] = (200, some b)
        ∧ b ∈ [(⟨"first", 5⟩ : BroadcastMessage), ⟨"second", 9⟩]
        ∧ ∀ x ∈ [(⟨"first", 5⟩ : BroadcastMessage), ⟨"second", 9⟩],
            x.created_at ≤ b.created_at :=
  ⟨(latest_never_errors []).1 rfl,
   (latest_never_errors [⟨"first", 5⟩, ⟨"second", 9⟩]).2 (by decide)⟩

/-! ## Self-service update (PUT /api/contacts, src/server.js:157-181) -/

/-- Body of PUT /api/contacts. -/
structure SelfUpdateRequest where
  old_phone_number : Option String
  new_name : Option String
  new_phone_number : Option String
  deriving DecidableEq, Repr

/-- The `$set` document built by the handler (src/server.js:163-170). -/
structure ContactUpdate where
  name : Option String
  phone_number : Option String
  deriving DecidableEq, Repr

/-- `$set` applied to one document: only the present fields change. -/
def applySet (upd : ContactUpdate) (c : Contact) : Contact :=
  { c with
    name := upd.name.getD c.name
    phone_number := upd.phone_number.getD c.phone_number }

/-- Replace the first document whose phone_number equals the filter. -/
def replaceFirstByPhone (old : String) (upd : ContactUpdate) :
    List Contact → List Contact
  | [] => []
  | c :: rest =>
    if c.phone_number == old then applySet upd c :: rest
    else c :: replaceFirstByPhone old upd rest

/-- `updateOne({ phone_number: old }, { $set: upd })` (src/server.js:172):
the filter compares the stored phone_number with `old` exactly as
supplied, with no normalization.  A `$set` that changes the unique key to
a value another document already holds is rejected by the index with
error 11000.  On success returns matchedCount and the post-state. -/
def updateOneByPhone (store : List Contact) (old : String)
    (upd : ContactUpdate) : Except Nat (Nat × List Contact) :=
  match store.find? (fun c => c.phone_number == old) with
  | none => .ok (0, store)
  | some c =>
    let c2 := applySet upd c
    if c2.phone_number != c.phone_number
        && store.any (fun d => d.phone_number == c2.phone_number) then
      .error 11000
    else
      .ok (1, replaceFirstByPhone old upd store)

/-- Outcome of PUT /api/contacts, tagged by the responses of
src/server.js:157-181. -/
inductive UpdateResult where
  | missingField                      -- 400
  | invalidPhone                      -- 400
  | notFound                          -- 404
  | duplicatePhone                    -- 409
  | storeFailure                      -- 500
  | updated (c : Option Contact)      -- 200 (the findOne may return null)
  deriving DecidableEq, Repr

/-- Second phase of PUT /api/contacts once the `$set` document is built
(src/server.js:172-176): run the updateOne, map matchedCount 0 to 404,
otherwise re-read by `update.phone_number || old_phone_number`. -/
def selfUpdateApply (store : List Contact) (old : String)
    (upd : ContactUpdate) : UpdateResult × List Contact × List StoreOp :=
  match updateOneByPhone store old upd with
  | .error _ => (.duplicatePhone, store, [.updateContact])
  | .ok (0, store2) => (.notFound, store2, [.updateContact])
  | .ok (_ + 1, store2) =>
    (.updated (store2.find?
        (fun c => c.phone_number == upd.phone_number.getD old)),
      store2, [.updateContact, .findContact])

/-- The PUT /api/contacts handler (src/server.js:157-181). -/
def selfUpdateHandler (store : List Contact) (req : SelfUpdateRequest) :
    UpdateResult × List Contact × List StoreOp :=
  if isFalsy req.old_phone_number
      || (isFalsy req.new_name && isFalsy req.new_phone_number) then
    (.missingField, store, [])
  else
    let old := req.old_phone_number.getD ""
    let updName : Option String :=
      if isFalsy req.new_name then none else req.new_name
    if isFalsy req.new_phone_number then
      selfUpdateApply store old ⟨updName, none⟩
    else
      let cleanedPhone := normalizePhone (req.new_phone_number.getD "")
      if phoneLengthBad cleanedPhone then
        (.invalidPhone, store, [])
      else
        selfUpdateApply store old ⟨updName, some cleanedPhone⟩

/-- Projection of the fields a name-only update must not touch. -/
def frameFields (c : Contact) : String × String × String × Nat :=
  (c.id, c.phone_number, c.link, c.created_at)

/-- Replacing with a `$set` that has no phone field preserves id,
phone_number, link and created_at of every document. -/
theorem replaceFirstByPhone_none_frame (old : String)
    (updName : Option String) (l : List Contact) :
    (replaceFirstByPhone old ⟨updName, none⟩ l).map frameFields
      = l.map frameFields := by
  induction l with
  | nil => rfl
  | cons c rest ih =>
    by_cases h : (c.phone_number == old) = true
    · simp [replaceFirstByPhone, h, applySet, frameFields]
    · simp only [replaceFirstByPhone, h, if_false, Bool.false_eq_true,
        List.map_cons, ih]

/-- When no stored document's phone_number equals the filter value, the
update phase is NotFound and the store is returned unchanged. -/
theorem selfUpdateApply_notFound (store : List Contact) (old : String)
    (upd : ContactUpdate)
    (hfind : store.find? (fun c => c.phone_number == old) = none) :
    selfUpdateApply store old upd
      = (.notFound, store, [StoreOp.updateContact]) := by
  simp [selfUpdateApply, updateOneByPhone, hfind]

/-- A `$set` without a phone field never changes any document's
phone_number, id, link or created_at, whatever the update outcome. -/
theorem selfUpdateApply_none_frame (store : List Contact) (old : String)
    (updName : Option String) :
    ((selfUpdateApply store old ⟨updName, none⟩).2.1).map frameFields
      = store.map frameFields := by
  unfold selfUpdateApply updateOneByPhone
  cases hf : store.find? (fun c => c.phone_number == old) with
  | none => rfl
  | some c =>
    have hph : (applySet ⟨updName, none⟩ c).phone_number = c.phone_number :=
      rfl
    simp [hph, replaceFirstByPhone_none_frame]

/-- C7: SelfUpdate applies only the provided fields.  With new_phone_number
absent (or empty), no contact's phone_number, id, link or created_at is
changed by the operation, whatever its outcome.  With a new_phone_number
supplied, the value is normalized and checked against the [10,15]-digit
rule: on failure the response is InvalidPhone with the store untouched
and zero store operations (no write occurs), and on success the `$set`
document carries exactly the normalized value. -/
theorem selfUpdate_frame_and_validation (store : List Contact)
    (req : SelfUpdateRequest) :
    (isFalsy req.new_phone_number = true →
      ((selfUpdateHandler store req).2.1).map frameFields
        = store.map frameFields)
    ∧ (∀ raw, req.new_phone_number = some raw →
        isFalsy req.old_phone_number = false → raw ≠ "" →
        phoneLengthBad (normalizePhone raw) = true →
        selfUpdateHandler store req
          = (.invalidPhone, store, []))
    ∧ (∀ raw, req.new_phone_number = some raw →
        isFalsy req.old_phone_number = false → raw ≠ "" →
        phoneLengthBad (normalizePhone raw) = false →
        selfUpdateHandler store req
          = selfUpdateApply store (req.old_phone_number.getD "")
              ⟨if isFalsy req.new_name then none else req.new_name,
                some (normalizePhone raw)⟩) := by
  refine ⟨?_, ?_, ?_⟩
  · intro hnp
    simp only [selfUpdateHandler]
    split
    · rfl
    · exact selfUpdateApply_none_frame store _ _
  · intro raw hr hold hraw hbad
    have hsf : isFalsy (some raw) = false := by
      simp [isFalsy, hraw]
    simp [selfUpdateHandler, hold, hsf, hr, hbad]
  · intro raw hr hold hraw hgood
    have hsf : isFalsy (some raw) = false := by
      simp [isFalsy, hraw]
    simp [selfUpdateHandler, hold, hsf, hr, hgood]

/-- Witness for C7: a name-only update leaves the phone (and id, link,
created_at) of the stored contact unchanged, and an invalid new phone is
rejected before any store access. -/
theorem selfUpdate_frame_and_validation_witness :
    ((selfUpdateHandler [⟨"a", "Old", "0712345678", SUPPORT_LINK, 0⟩]
        ⟨some "0712345678", some "NewName", none⟩).2.1).map frameFields
      = [⟨"a", "Old", "0712345678", SUPPORT_LINK, 0⟩].map frameFields
    ∧ selfUpdateHandler [⟨"a", "Old", "0712345678", SUPPORT_LINK, 0⟩]
        ⟨some "0712345678", none, some "++12 34"⟩
      = (.invalidPhone, [⟨"a", "Old", "0712345678", SUPPORT_LINK, 0⟩], []) :=
  ⟨(selfUpdate_frame_and_validation
      [⟨"a", "Old", "0712345678", SUPPORT_LINK, 0⟩]
      ⟨some "0712345678", some "NewName", none⟩).1 (by decide),
   (selfUpdate_frame_and_validation
      [⟨"a", "Old", "0712345678", SUPPORT_LINK, 0⟩]
      ⟨some "0712345678", none, some "++12 34"⟩).2.1 "++12 34"
      rfl (by decide) (by decide) (by decide)⟩

/-- C10: SelfUpdate matches by old_phone_number exactly as supplied.  If
every stored phone_number is digits-only (the canonical form every write
path stores) and old_phone_number contains a non-digit character, then —
provided the request passes the field checks — the updateOne matches
nothing, the response is NotFound and the store is unchanged. -/
theorem selfUpdate_exact_match_notFound (store : List Contact)
    (old : String) (newName newPhone : Option String)
    (hdigits : ∀ c ∈ store, c.phone_number.data.all Char.isDigit = true)
    (hnond : ∃ ch ∈ old.data, ¬ch.isDigit)
    (hvp : ∀ raw, newPhone = some raw → raw ≠ "" →
        phoneLengthBad (normalizePhone raw) = false)
    (hgiven : isFalsy newName = false
        ∨ ∃ raw, newPhone = some raw ∧ raw ≠ "") :
    selfUpdateHandler store ⟨some old, newName, newPhone⟩
      = (.notFound, store, [StoreOp.updateContact]) := by
  have hne : old ≠ "" := by
    obtain ⟨ch, hch, _⟩ := hnond
    intro he
    subst he
    simp at hch
  have hof : isFalsy (some old) = false := by
    simp [isFalsy]
    exact hne
  have hfind : store.find? (fun c => c.phone_number == old) = none := by
    rw [List.find?_eq_none]
    intro c hc
    simp only [beq_eq_false_iff_ne, ne_eq, Bool.not_eq_true, beq_iff_eq]
    intro heq
    obtain ⟨ch, hch, hnd⟩ := hnond
    have hall := hdigits c hc
    rw [heq, List.all_eq_true] at hall
    exact hnd (hall ch hch)
  have happ : ∀ upd, selfUpdateApply store old upd
      = (.notFound, store, [StoreOp.updateContact]) :=
    fun upd => selfUpdateApply_notFound store old upd hfind
  by_cases hnpf : isFalsy newPhone = true
  · have hnn : isFalsy newName = false := by
      rcases hgiven with h | ⟨raw, hr, hraw⟩
      · exact h
      · subst hr
        simp [isFalsy] at hnpf
        exact absurd hnpf hraw
    simp [selfUpdateHandler, hof, hnn, hnpf, happ]
  · simp only [Bool.not_eq_true] at hnpf
    cases hp : newPhone with
    | none =>
      rw [hp] at hnpf
      simp [isFalsy] at hnpf
    | some raw =>
      have hraw : raw ≠ "" := by
        rw [hp] at hnpf
        simp [isFalsy] at hnpf
        exact hnpf
      have hlen := hvp raw hp hraw
      simp [selfUpdateHandler, hof, hp, hnpf, hlen, happ,
        (by rw [hp] at hnpf; exact hnpf : isFalsy (some raw) = false)]

/-- Witness for C10: an old_phone_number with a leading plus sign matches
no stored digits-only contact, so the update is NotFound and the store is
unchanged. -/
theorem selfUpdate_exact_match_notFound_witness :
    selfUpdateHandler [⟨"a", "Amy", "254712000111", SUPPORT_LINK, 0⟩]
      ⟨some "+254712000111", some "NewName", none⟩
      = (.notFound, [⟨"a", "Amy", "254712000111", SUPPORT_LINK, 0⟩],
        [StoreOp.updateContact]) :=
  selfUpdate_exact_match_notFound
    [⟨"a", "Amy", "254712000111", SUPPORT_LINK, 0⟩]
    "+254712000111" (some "NewName") none
    (by decide) (by decide)
    (fun raw h => absurd h (by simp))
    (Or.inl (by decide))

/-! ## Admin contact mutation by id (src/server.js:225-261) -/

/-- Hexadecimal character. -/
def isHexChar (c : Char) : Bool :=
  c.isDigit || (('a' ≤ c) && (c ≤ 'f')) || (('A' ≤ c) && (c ≤ 'F'))

/-- A well-formed ObjectId string: exactly 24 hexadecimal characters. -/
def isValidObjectId (s : String) : Bool :=
  s.length == 24 && s.data.all isHexChar

/-- `new ObjectId(s)`: ok on a well-formed id; on anything else the
constructor throws a BSONError, an exception carrying no Mongo `code`
property (modelled as `none`, never the duplicate-key 11000). -/
def mkObjectId (s : String) : Except (Option Nat) String :=
  if isValidObjectId s then .ok s else .error none

/-- Outcomes of the admin PUT/DELETE contact routes
(src/server.js:225-261). -/
inductive AdminMutateResult where
  | nothingToUpdate                  -- 400
  | invalidPhone                     -- 400
  | notFound                         -- 404
  | duplicatePhone                   -- 409
  | storeFailure                     -- 500
  | updated (c : Option Contact)     -- 200
  | deleted                          -- 200
  deriving DecidableEq, Repr

/-- `deleteOne({ _id: oid })`: remove the first document with that id,
returning deletedCount and the post-state. -/
def deleteOneById (oid : String) : List Contact → Nat × List Contact
  | [] => (0, [])
  | c :: rest =>
    if c.id == oid then (1, rest)
    else
      let r := deleteOneById oid rest
      (r.1, c :: r.2)

/-- DELETE /api/admin/contacts/:id (src/server.js:252-261), after the
admin gate.  A malformed :id makes the ObjectId constructor throw inside
the try block before the deleteOne runs; the catch answers the generic
500. -/
def adminDeleteHandler (store : List Contact) (idStr : String) :
    AdminMutateResult × List Contact × List StoreOp :=
  match mkObjectId idStr with
  | .error _ => (.storeFailure, store, [])
  | .ok oid =>
    match deleteOneById oid store with
    | (0, store2) => (.notFound, store2, [.deleteContact])
    | (_ + 1, store2) => (.deleted, store2, [.deleteContact])

/-- Replace the first document with the given id. -/
def replaceFirstById (oid : String) (upd : ContactUpdate) :
    List Contact → List Contact
  | [] => []
  | c :: rest =>
    if c.id == oid then applySet upd c :: rest
    else c :: replaceFirstById oid upd rest

/-- `updateOne({ _id: oid }, { $set: upd })` with the unique phone_number
index enforced as in `updateOneByPhone`. -/
def updateOneById (store : List Contact) (oid : String)
    (upd : ContactUpdate) : Except Nat (Nat × List Contact) :=
  match store.find? (fun c => c.id == oid) with
  | none => .ok (0, store)
  | some c =>
    let c2 := applySet upd c
    if c2.phone_number != c.phone_number
        && store.any (fun d => d.phone_number == c2.phone_number) then
      .error 11000
    else
      .ok (1, replaceFirstById oid upd store)

/-- Tail of PUT /api/admin/contacts/:id once the `$set` document is built
(src/server.js:240-244): construct the ObjectId — throwing to the catch
(500) on a malformed :id — then updateOne and re-read. -/
def adminUpdateApply (store : List Contact) (idStr : String)
    (upd : ContactUpdate) : AdminMutateResult × List Contact × List StoreOp :=
  match mkObjectId idStr with
  | .error _ => (.storeFailure, store, [])
  | .ok oid =>
    match updateOneById store oid upd with
    | .error _ => (.duplicatePhone, store, [.updateContact])
    | .ok (0, store2) => (.notFound, store2, [.updateContact])
    | .ok (_ + 1, store2) =>
      (.updated (store2.find? (fun c => c.id == oid)), store2,
        [.updateContact, .findContact])

/-- PUT /api/admin/contacts/:id (src/server.js:225-249), after the admin
gate. -/
def adminUpdateHandler (store : List Contact) (idStr : String)
    (name phone : Option String) :
    AdminMutateResult × List Contact × List StoreOp :=
  if isFalsy name && isFalsy phone then (.nothingToUpdate, store, [])
  else
    let updName : Option String := if isFalsy name then none else name
    if isFalsy phone then adminUpdateApply store idStr ⟨updName, none⟩
    else
      let cleanedPhone := normalizePhone (phone.getD "")
      if phoneLengthBad cleanedPhone then (.invalidPhone, store, [])
      else adminUpdateApply store idStr ⟨updName, some cleanedPhone⟩

/-- C9: an :id path parameter that is not a well-formed ObjectId string
makes the constructor throw inside the try block of AdminDelete and (for
any body that passes its field validation) AdminUpdate, so the response
is the generic 500, not 404, the store is unchanged and no store
operation is attempted. -/
theorem malformed_objectId_is_500 (store : List Contact) (idStr : String)
    (name phone : Option String)
    (hbadid : isValidObjectId idStr = false)
    (hbody : isFalsy name = false ∨ ∃ raw, phone = some raw ∧ raw ≠ "")
    (hvp : ∀ raw, phone = some raw → raw ≠ "" →
        phoneLengthBad (normalizePhone raw) = false) :
    adminDeleteHandler store idStr
      = (.storeFailure, store, ([] : List StoreOp))
    ∧ adminUpdateHandler store idStr name phone
      = (.storeFailure, store, ([] : List StoreOp)) := by
  have hmk : mkObjectId idStr = .error none := by
    simp [mkObjectId, hbadid]
  constructor
  · simp [adminDeleteHandler, hmk]
  · have happ : ∀ upd, adminUpdateApply store idStr upd
        = (.storeFailure, store, ([] : List StoreOp)) := by
      intro upd
      simp [adminUpdateApply, hmk]
    by_cases hpf : isFalsy phone = true
    · have hnn : isFalsy name = false := by
        rcases hbody with h | ⟨raw, hr, hraw⟩
        · exact h
        · subst hr
          simp [isFalsy] at hpf
          exact absurd hpf hraw
      simp [adminUpdateHandler, hnn, hpf, happ]
    · simp only [Bool.not_eq_true] at hpf
      cases hp : phone with
      | none =>
        rw [hp] at hpf
        simp [isFalsy] at hpf
      | some raw =>
        have hraw : raw ≠ "" := by
          rw [hp] at hpf
          simpa [isFalsy] using hpf
        have hlen := hvp raw hp hraw
        have hsf : isFalsy (some raw) = false := by
          simp [isFalsy, hraw]
        simp [adminUpdateHandler, hp, hsf, hlen, happ]

/-- Witness for C9: a non-hex :id yields 500 on both admin routes, with
the store untouched. -/
theorem malformed_objectId_is_500_witness :
    adminDeleteHandler [⟨"aaaaaaaaaaaaaaaaaaaaaaaa", "Amy", "254712000111",
        SUPPORT_LINK, 0⟩] "not-an-objectid"
      = (.storeFailure, [⟨"aaaaaaaaaaaaaaaaaaaaaaaa", "Amy", "254712000111",
          SUPPORT_LINK, 0⟩], ([] : List StoreOp))
    ∧ adminUpdateHandler [⟨"aaaaaaaaaaaaaaaaaaaaaaaa", "Amy", "254712000111",
        SUPPORT_LINK, 0⟩] "not-an-objectid" (some "NewName") none
      = (.storeFailure, [⟨"aaaaaaaaaaaaaaaaaaaaaaaa", "Amy", "254712000111",
          SUPPORT_LINK, 0⟩], ([] : List StoreOp)) :=
  malformed_objectId_is_500
    [⟨"aaaaaaaaaaaaaaaaaaaaaaaa", "Amy", "254712000111", SUPPORT_LINK, 0⟩]
    "not-an-objectid" (some "NewName") none
    (by decide) (Or.inl (by decide)) (fun raw h => absurd h (by simp))

/-! ## VIP media intake (POST /api/admin/vip/send-media,
src/server.js:266-312) -/

/-- One decoded multipart file part. -/
structure UploadedFile where
  fieldname : String
  mimetype : String
  buffer : List Nat          -- raw bytes, each < 256
  deriving DecidableEq, Repr

/-- A document of the vip media collection. -/
structure VipMedia where
  file_url : String
  caption : String
  type : String
  created_at : Nat
  deriving DecidableEq, Repr

/-- The base64 alphabet. -/
def base64Chars : List Char :=
  "ABCDEFGHIJKLMNOPQRSTUVWXYZabcdefghijklmnopqrstuvwxyz0123456789+/".data

/-- The base64 digit for a 6-bit value. -/
def base64Char (n : Nat) : Char := base64Chars.getD n 'A'

/-- `Buffer.prototype.toString("base64")` on a byte sequence, with the
standard `=` padding. -/
def base64Encode : List Nat → String
  | [] => ""
  | [b1] =>
    let x := b1 % 256
    ⟨[base64Char (x / 4), base64Char (x % 4 * 16), '=', '=']⟩
  | [b1, b2] =>
    let x := b1 % 256
    let y := b2 % 256
    ⟨[base64Char (x / 4), base64Char (x % 4 * 16 + y / 16),
      base64Char (y % 16 * 4), '=']⟩
  | b1 :: b2 :: b3 :: rest =>
    let x := b1 % 256
    let y := b2 % 256
    let z := b3 % 256
    (⟨[base64Char (x / 4), base64Char (x % 4 * 16 + y / 16),
       base64Char (y % 16 * 4 + z / 64), base64Char (z % 64)]⟩ : String)
      ++ base64Encode rest

/-- The MIME allow-list per declared type (src/server.js:282-286); an
unknown declared type has no allow-list, so the inclusion check fails. -/
def allowedTypes (t : String) : Option (List String) :=
  if t == "photo" then some ["image/jpeg", "image/png", "image/webp"]
  else if t == "video" then some ["video/mp4", "video/webm"]
  else if t == "audio" then some ["audio/mpeg", "audio/mp3", "audio/ogg"]
  else none

/-- Outcome of POST /api/admin/vip/send-media. -/
inductive VipSendResult where
  | missingFile                    -- 400
  | invalidMediaType               -- 400
  | storeFailure                   -- 500
  | success (m : VipMedia)         -- 200
  deriving DecidableEq, Repr

/-- The insert step of the VIP handler (src/server.js:304) is written
`await vipPhotosCollection.insertOne(media)`, but the module declares and
initializes `vipMediaCollection` (src/server.js:29 and 41); no binding
named `vipPhotosCollection` exists anywhere in the module, so evaluating
the insert expression raises a ReferenceError — an exception with no
Mongo error code — before any write can reach the store. -/
def vipInsert (store : List VipMedia) (m : VipMedia) :
    Except (Option Nat) (List VipMedia) :=
  .error none

/-- POST /api/admin/vip/send-media (src/server.js:266-312), after the
admin gate: pick the "file" part, else the "image" part, 400 when absent;
default the declared type to "photo" and the caption to empty; reject a
MIME type outside the allow-list; otherwise build the base64 data URI
and attempt the insert — which, `vipPhotosCollection` being undeclared,
throws, so the catch answers the generic 500. -/
def vipSendMediaHandler (now : Nat) (store : List VipMedia)
    (files : List UploadedFile) (caption : Option String)
    (declaredType : Option String) :
    VipSendResult × List VipMedia × List StoreOp :=
  match (files.find? (fun f => f.fieldname == "file")).orElse
      (fun _ => files.find? (fun f => f.fieldname == "image")) with
  | none => (.missingFile, store, [])
  | some f =>
    let cap := caption.getD ""
    let t := declaredType.getD "photo"
    match allowedTypes t with
    | none => (.invalidMediaType, store, [])
    | some allowed =>
      if f.mimetype ∈ allowed then
        let fileUrl := "data:" ++ f.mimetype ++ ";base64,"
          ++ base64Encode f.buffer
        let media : VipMedia := ⟨fileUrl, cap, t, now⟩
        match vipInsert store media with
        | .error _ => (.storeFailure, store, [])
        | .ok store2 => (.success media, store2, [.insertVipMedia])
      else (.invalidMediaType, store, [])

/-- C5 (code bug): a fully valid VIP upload — admin-authorized, a "file"
part with MIME image/jpeg declared as photo — does not store a VipMedia
record and does not return success: the handler's insert references the
undeclared `vipPhotosCollection` (the module declares
`vipMediaCollection`), so it answers the generic 500 with the store
unchanged.  The allow-list rejection branch, by contrast, behaves as
claimed. -/
theorem vip_send_media_insert_bug :
    vipSendMediaHandler 7 [] [⟨"file", "image/jpeg", [72, 105]⟩]
        (some "hello") (some "photo")
      = (.storeFailure, [], [])
    ∧ vipSendMediaHandler 7 [] [⟨"file", "application/pdf", [72, 105]⟩]
        (some "hello") (some "photo")
      = (.invalidMediaType, [], []) :=
  ⟨rfl, rfl⟩

end VcfApp
